import Mathlib

/-!
Verification of the MLOps-Weather-Prediction repository.

The online serving flow (`app.py`) and the offline data-processing pipeline
(`src/data_processing.py`) are shallowly embedded below, at two levels.

For the value-level properties (the derivation rules and encodings), Python
floats are modelled as exact rationals: every constant of the program is
decimal, and every quantity compared stays at least 0.02 away from any
rounding boundary, so double-precision rounding cannot flip a result.

For the error-behaviour property of the input validation, floats are
modelled as the IEEE-style domain `PyFloat` (finite rational, ±infinity,
NaN — with Python's comparison semantics, under which NaN compares false),
and the string parsers `float()` and `date.fromisoformat` are abstract
parameters, so no commitment is made to their grammar; theorems about that
pipeline hold for every parser under which the fixed defaults parse.

Python integers are modelled as `Int`, Python strings as `String`, a posted
HTML form as a partial map `String → Option String`, and raised exceptions
as the `Except` monad.
-/

namespace WeatherApp

/-- Python's built-in `round` on a real value: nearest integer, ties to even
(banker's rounding). -/
def pyRound (q : ℚ) : ℤ :=
  let f : ℤ := ⌊q⌋
  let r : ℚ := q - f
  if r < 1/2 then f
  else if 1/2 < r then f + 1
  else if Even f then f else f + 1

/-- Python's `round(x, 1)`: round to one decimal digit, ties to even. -/
def pyRound1 (q : ℚ) : ℚ := (pyRound (q * 10) : ℚ) / 10

/-- Numeric value of a decimal digit character. -/
def digitVal (c : Char) : ℕ := c.toNat - 48

/-- Natural number denoted by a list of decimal digit characters
(most significant first); empty list denotes 0. -/
def natOfDigits (cs : List Char) : ℕ :=
  cs.foldl (fun a c => a * 10 + digitVal c) 0

/-- Python's `float(s)` on plain decimal strings, after the optional sign:
digits, with at most one point, and at least one digit overall
(`"5"`, `"5."`, `".5"`, `"5.25"`).  Scientific notation, infinities, NaN and
surrounding whitespace are outside the model; on every string this model
accepts, CPython's `float` returns the same (real) value. -/
def pyFloatCore (cs : List Char) : Option ℚ :=
  let ip := cs.takeWhile (·.isDigit)
  let rest := cs.dropWhile (·.isDigit)
  match rest with
  | [] => if ip.isEmpty then none else some (natOfDigits ip)
  | '.' :: fracCs =>
      if fracCs.all (·.isDigit) ∧ (ip ≠ [] ∨ fracCs ≠ []) then
        some ((natOfDigits ip : ℚ) + (natOfDigits fracCs : ℚ) / (10 ^ fracCs.length))
      else none
  | _ => none

/-- Python's `float(s)` (decimal subset, see `pyFloatCore`): optional sign,
then an unsigned decimal literal. -/
def pyFloat (s : String) : Option ℚ :=
  match s.data with
  | [] => none
  | '-' :: rest => (pyFloatCore rest).map (fun q => -q)
  | '+' :: rest => pyFloatCore rest
  | cs => pyFloatCore cs

/-- Gregorian leap-year test, as `datetime.date` uses. -/
def isLeap (y : ℕ) : Bool := (y % 4 == 0 && y % 100 != 0) || y % 400 == 0

/-- Days in a month of the proleptic Gregorian calendar. -/
def daysInMonth (y m : ℕ) : ℕ :=
  if m = 2 then (if isLeap y then 29 else 28)
  else if m = 4 ∨ m = 6 ∨ m = 9 ∨ m = 11 then 30
  else 31

/-- A `datetime.date` value: a valid Gregorian calendar date. -/
structure PyDate where
  year : ℕ
  month : ℕ
  day : ℕ
deriving DecidableEq, Repr

/-- Python's `datetime.date.fromisoformat` on the canonical `YYYY-MM-DD`
layout: exactly ten characters, two dashes, digits elsewhere, and the fields
must form a valid calendar date. -/
def parseDate (s : String) : Option PyDate :=
  match s.data with
  | [y1, y2, y3, y4, '-', m1, m2, '-', d1, d2] =>
      if ([y1, y2, y3, y4, m1, m2, d1, d2].all (·.isDigit)) then
        let y := natOfDigits [y1, y2, y3, y4]
        let m := natOfDigits [m1, m2]
        let d := natOfDigits [d1, d2]
        if 1 ≤ y ∧ 1 ≤ m ∧ m ≤ 12 ∧ 1 ≤ d ∧ d ≤ daysInMonth y m then
          some ⟨y, m, d⟩
        else none
      else none
  | _ => none

/-- `WIND_DIRS` from `app.py`: the 16 compass directions in training order. -/
def WIND_DIRS : List String :=
  ["N", "NNE", "NE", "ENE", "E", "ESE", "SE", "SSE",
   "S", "SSW", "SW", "WSW", "W", "WNW", "NW", "NNW"]

/-- `LOCATIONS` from `app.py`: the location vocabulary, verbatim. -/
def LOCATIONS : List String :=
  ["Adelaide", "Albury", "AliceSprings", "BadgerysCreek", "Ballarat", "Bendigo",
   "Brisbane", "Cairns", "Canberra", "Cobar", "CoffsHarbour", "Dartmoor", "Darwin",
   "GoldCoast", "Hobart", "Katherine", "Launceston", "Melbourne", "MelbourneAirport",
   "Mildura", "Moree", "MountGambier", "MountGinini", "Nhil", "NorahHead",
   "NorfolkIsland", "Nuriootpa", "PearceRAAF", "Penrith", "Perth", "PerthAirport",
   "Portland", "Richmond", "Sale", "SalmonGums", "Sydney", "SydneyAirport",
   "Townsville", "Tuggeranong", "Uluru", "WaggaWagga", "Walpole", "Watsonia",
   "Williamtown", "Witchcliffe", "Wollongong", "Woomera"]

/-- A Python dict built by `{x: i for i, x in enumerate(xs)}`, as an
association list from value to index.  When `xs` has no duplicates (true of
both vocabularies, proved below) the dict is exactly this list read
left-to-right. -/
def enumMap (xs : List String) : List (String × ℕ) :=
  (xs.zip (List.range xs.length)).map (fun p => (p.1, p.2))

/-- Python `dict.get(k, d)` on an `enumMap`-style dict. -/
def dictGet (m : List (String × ℕ)) (k : String) (d : ℕ) : ℕ :=
  match m.find? (fun p => p.1 = k) with
  | some p => p.2
  | none => d

/-- `WIND_DIR_MAP.get(k, d)` from `app.py`. -/
def WIND_DIR_MAP_get (k : String) (d : ℕ) : ℕ := dictGet (enumMap WIND_DIRS) k d

/-- `LOCATION_MAP.get(k, d)` from `app.py`. -/
def LOCATION_MAP_get (k : String) (d : ℕ) : ℕ := dictGet (enumMap LOCATIONS) k d

/-- `YES_NO_MAP` from `app.py`: `{"No": 0, "Yes": 1}` (total on its two keys;
the program only ever indexes it with `"Yes"` or `"No"`). -/
def YES_NO_MAP (k : String) : ℕ := if k = "Yes" then 1 else 0

/-- `PREVAILING_BY_LOCATION` from `app.py`. -/
def PREVAILING_BY_LOCATION : List (String × String) :=
  [("Sydney", "NE"), ("SydneyAirport", "NE"), ("Wollongong", "NE"),
   ("Melbourne", "SW"), ("MelbourneAirport", "SW"), ("Geelong", "SW"),
   ("Perth", "SW"), ("PerthAirport", "SW"),
   ("Brisbane", "SE"), ("GoldCoast", "SE"), ("Cairns", "SE"), ("Townsville", "SE"),
   ("Hobart", "W"), ("Launceston", "W"),
   ("Darwin", "NW"), ("Katherine", "NW")]

/-- `_prevailing_dir_for_location` from `app.py`:
`PREVAILING_BY_LOCATION.get(loc, "SW")`. -/
def prevailing_dir_for_location (loc : String) : String :=
  match PREVAILING_BY_LOCATION.find? (fun p => p.1 = loc) with
  | some p => p.2
  | none => "SW"

/-- An exception raised by the serving flow (`CustomException` carrying its
message; the app surfaces only `str(e)`). -/
structure CE where
  message : String
deriving DecidableEq, Repr

/-- `_parse_float` from `app.py`. -/
def parse_float (name : String) (value : String) : Except CE ℚ :=
  match pyFloat value with
  | some x => .ok x
  | none => .error ⟨name ++ ": value must be numeric."⟩

/-- `_parse_float_in_range` from `app.py`.  The source message interpolates
the offending value and the bounds; the model keeps a fixed message, since no
claim inspects message text beyond the raising itself. -/
def parse_float_in_range (name : String) (value : String) (lo hi : ℚ) :
    Except CE ℚ :=
  match parse_float name value with
  | .error e => .error e
  | .ok x =>
      if x < lo ∨ x > hi then .error ⟨name ++ ": out of range."⟩
      else .ok x

/-- `_parse_int_in_range` from `app.py`: parse a float in range and return
`int(round(x))`. -/
def parse_int_in_range (name : String) (value : String) (lo hi : ℚ) :
    Except CE ℤ :=
  match parse_float_in_range name value lo hi with
  | .error e => .error e
  | .ok x => .ok (pyRound x)

/-- `_parse_date` from `app.py`. -/
def parse_date (value : String) : Except CE PyDate :=
  match parseDate value with
  | some d => .ok d
  | none => .error ⟨"Date: invalid format (expected YYYY-MM-DD)."⟩

/-- `_season_of` from `app.py` (southern-hemisphere convention). -/
def season_of (month : ℕ) : String :=
  if month = 12 ∨ month = 1 ∨ month = 2 then "summer"
  else if month = 3 ∨ month = 4 ∨ month = 5 then "autumn"
  else if month = 6 ∨ month = 7 ∨ month = 8 then "winter"
  else "spring"

/-- The sunshine-by-season dict lookup in `_infer_missing_features`
(`{"summer": 9.0, "autumn": 7.0, "winter": 5.0, "spring": 8.0}.get(season, 7.0)`). -/
def sunshine_of (season : String) : ℚ :=
  if season = "summer" then 9.0
  else if season = "autumn" then 7.0
  else if season = "winter" then 5.0
  else if season = "spring" then 8.0
  else 7.0

/-- The dictionary returned by `_infer_missing_features`: every model feature,
already numerically encoded. -/
structure Features where
  Location : ℕ
  MinTemp : ℚ
  MaxTemp : ℚ
  Rainfall : ℚ
  Evaporation : ℚ
  Sunshine : ℚ
  WindGustDir : ℕ
  WindGustSpeed : ℤ
  WindDir9am : ℕ
  WindDir3pm : ℕ
  WindSpeed9am : ℤ
  WindSpeed3pm : ℤ
  Humidity9am : ℤ
  Humidity3pm : ℤ
  Pressure9am : ℚ
  Pressure3pm : ℚ
  Cloud9am : ℤ
  Cloud3pm : ℤ
  Temp9am : ℚ
  Temp3pm : ℚ
  RainToday : ℕ
  Year : ℕ
  Month : ℕ
  Day : ℕ
deriving DecidableEq, Repr

/-- The gust-speed rule of `_infer_missing_features`:
`int(min(150, max(spd_3pm + 20, spd_3pm)))`. -/
def gustSpeedOf (spd_3pm : ℤ) : ℤ := min 150 (max (spd_3pm + 20) spd_3pm)

/-- The derivation block of `_infer_missing_features` (everything after the
five parses succeed), line for line from `app.py`. -/
def inferFromParsed (loc : String) (date : PyDate) (min_temp max_temp : ℚ)
    (hum_3pm spd_3pm : ℤ) (rainfall : ℚ) : Features :=
  let year := date.year
  let month := date.month
  let day := date.day
  let season := season_of month
  let temp3pm := min max_temp (max min_temp ((min_temp + 0.7 * max_temp) / 1.7))
  let temp9am := max min_temp (min max_temp (0.6 * min_temp + 0.4 * max_temp))
  let sunshine := sunshine_of season
  let cloud3pm0 : ℤ := pyRound (((hum_3pm : ℚ) / 100.0) * 8)
  let cloud3pm : ℤ := max 0 (min 8 cloud3pm0)
  let cloud9am := cloud3pm
  let pressure3pm := pyRound1 (1015.0 - 0.08 * ((hum_3pm : ℚ) - 50))
  let pressure9am := pressure3pm
  let dir3pm := prevailing_dir_for_location loc
  let gust_speed := gustSpeedOf spd_3pm
  let spd_9am : ℤ := max 0 (spd_3pm - 3)
  let evaporation := max 0.0 (0.12 * sunshine + 0.03 * (max_temp - min_temp))
  let rain_today := if rainfall > 0.2 then "Yes" else "No"
  let loc_enc := LOCATION_MAP_get loc 0
  let dir3pm_enc := WIND_DIR_MAP_get dir3pm (WIND_DIR_MAP_get "SW" 0)
  let dir9am_enc := dir3pm_enc
  let gust_dir_enc := dir3pm_enc
  let rain_today_enc := YES_NO_MAP rain_today
  ⟨loc_enc, min_temp, max_temp, rainfall, evaporation, sunshine,
   gust_dir_enc, gust_speed, dir9am_enc, dir3pm_enc, spd_9am, spd_3pm,
   hum_3pm, hum_3pm, pressure9am, pressure3pm, cloud9am, cloud3pm,
   temp9am, temp3pm, rain_today_enc, year, month, day⟩

/-- A posted HTML form: each field name maps to the posted string, or to
nothing when the field is absent. -/
def Form : Type := String → Option String

/-- Python's `form.get(k, d)`. -/
def formGet (form : Form) (k d : String) : String := (form k).getD d

/-- `_infer_missing_features` from `app.py`.  `todayStr` stands for
`DEFAULTS["Date"]`, which the source computes at startup as
`dt.date.today().isoformat()`; real time is outside the model, so the string
is a parameter.  The parses happen in source order and the first failure
raises. -/
def infer_missing_features (todayStr : String) (form : Form) :
    Except CE Features :=
  let loc := formGet form "Location" "Sydney"
  match parse_date (formGet form "Date" todayStr) with
  | .error e => .error e
  | .ok date =>
  match parse_float_in_range "MinTemp" (formGet form "MinTemp" "13.0") (-10) 45 with
  | .error e => .error e
  | .ok min_temp =>
  match parse_float_in_range "MaxTemp" (formGet form "MaxTemp" "23.0") (-10) 50 with
  | .error e => .error e
  | .ok max_temp =>
  match parse_int_in_range "Humidity3pm" (formGet form "Humidity3pm" "55") 0 100 with
  | .error e => .error e
  | .ok hum_3pm =>
  match parse_int_in_range "WindSpeed3pm" (formGet form "WindSpeed3pm" "20") 0 100 with
  | .error e => .error e
  | .ok spd_3pm =>
  match parse_float_in_range "Rainfall" (formGet form "Rainfall" "0.0") 0 200 with
  | .error e => .error e
  | .ok rainfall =>
    .ok (inferFromParsed loc date min_temp max_temp hum_3pm spd_3pm rainfall)

/-- `_build_feature_vector_from_inferred` from `app.py`: the single row of the
`(1, n)` array, every entry cast to float (`dtype=float`). -/
def build_feature_vector_from_inferred (vals : Features) : List ℚ :=
  [(vals.Location : ℚ), vals.MinTemp, vals.MaxTemp, vals.Rainfall,
   vals.Evaporation, vals.Sunshine, (vals.WindGustDir : ℚ), (vals.WindGustSpeed : ℚ),
   (vals.WindDir9am : ℚ), (vals.WindDir3pm : ℚ), (vals.WindSpeed9am : ℚ), (vals.WindSpeed3pm : ℚ),
   (vals.Humidity9am : ℚ), (vals.Humidity3pm : ℚ), vals.Pressure9am, vals.Pressure3pm,
   (vals.Cloud9am : ℚ), (vals.Cloud3pm : ℚ), vals.Temp9am, vals.Temp3pm,
   (vals.RainToday : ℚ), (vals.Year : ℚ), (vals.Month : ℚ), (vals.Day : ℚ)]

/-- Lexicographic comparison of character lists by Unicode code point —
the order Python string comparison uses, and the alphabetical order of the
(ASCII) vocabulary names. -/
def charListLt : List Char → List Char → Bool
  | [], [] => false
  | [], _ :: _ => true
  | _ :: _, [] => false
  | a :: as, b :: bs =>
      if a.toNat < b.toNat then true
      else if b.toNat < a.toNat then false
      else charListLt as bs

/-- Strict alphabetical (code-point lexicographic) order on strings. -/
def strLt (a b : String) : Bool := charListLt a.data b.data

/-- Each list entry is alphabetically strictly before the next. -/
def chainStrLt : List String → Bool
  | [] => true
  | [_] => true
  | a :: b :: rest => strLt a b && chainStrLt (b :: rest)

/-- The clamp of `x` into `[lo, hi]`, as the spec phrases the temperature
derivations. -/
def clampSpec (lo hi x : ℚ) : ℚ := max lo (min hi x)

/-- The empty posted form: every field absent. -/
def emptyForm : Form := fun _ => none

/-- A form posting only `Rainfall = "0.2"` (the threshold boundary). -/
def rainBoundaryForm : Form :=
  fun k => if k = "Rainfall" then some "0.2" else none

/-- A form posting `MinTemp = "30.0"` and `MaxTemp = "20.0"` (an inverted
temperature pair, both in range). -/
def invertedTempForm : Form :=
  fun k =>
    if k = "MinTemp" then some "30.0"
    else if k = "MaxTemp" then some "20.0"
    else none

/-- The feature set inferred from the empty form on 2026-10-12 (all defaults). -/
def defaultFeat : Features :=
  inferFromParsed "Sydney" ⟨2026, 10, 12⟩ 13 23 55 20 0

/-- The feature set inferred from `rainBoundaryForm` on 2026-10-12. -/
def rainBoundaryFeat : Features :=
  inferFromParsed "Sydney" ⟨2026, 10, 12⟩ 13 23 55 20 (1/5)

/-- The feature set inferred from `invertedTempForm` on 2026-10-12. -/
def invertedTempFeat : Features :=
  inferFromParsed "Sydney" ⟨2026, 10, 12⟩ 30 20 55 20 0

/-- A Python float value: a finite value (an exact rational — every finite
double is one), an infinity, or NaN.  CPython's `float(s)` can return any of
these (`"inf"`, `"nan"` are accepted literals). -/
inductive PyFloat where
  | finite (q : ℚ)
  | pinf
  | ninf
  | nan
deriving DecidableEq, Repr

/-- Python `<` on floats: NaN compares false against everything. -/
def PyFloat.lt : PyFloat → PyFloat → Bool
  | .nan, _ => false
  | _, .nan => false
  | .finite a, .finite b => decide (a < b)
  | .finite _, .pinf => true
  | .finite _, .ninf => false
  | .pinf, _ => false
  | .ninf, .ninf => false
  | .ninf, _ => true

/-- Python `>` on floats. -/
def PyFloat.gt (a b : PyFloat) : Bool := PyFloat.lt b a

/-- Python unary minus on floats. -/
def PyFloat.neg : PyFloat → PyFloat
  | .finite q => .finite (-q)
  | .pinf => .ninf
  | .ninf => .pinf
  | .nan => .nan

/-- Python `+` on floats (IEEE: NaN propagates, opposite infinities give
NaN).  Overflow to infinity is ignored: every finite value reachable in this
program is tiny. -/
def PyFloat.add : PyFloat → PyFloat → PyFloat
  | .nan, _ => .nan
  | _, .nan => .nan
  | .finite a, .finite b => .finite (a + b)
  | .finite _, .pinf => .pinf
  | .finite _, .ninf => .ninf
  | .pinf, .finite _ => .pinf
  | .ninf, .finite _ => .ninf
  | .pinf, .pinf => .pinf
  | .ninf, .ninf => .ninf
  | .pinf, .ninf => .nan
  | .ninf, .pinf => .nan

/-- Python `-` on floats. -/
def PyFloat.sub (a b : PyFloat) : PyFloat := a.add b.neg

/-- Python `*` on floats (IEEE: NaN propagates, `0 * inf` is NaN). -/
def PyFloat.mul : PyFloat → PyFloat → PyFloat
  | .nan, _ => .nan
  | _, .nan => .nan
  | .finite a, .finite b => .finite (a * b)
  | .finite a, .pinf => if 0 < a then .pinf else if a < 0 then .ninf else .nan
  | .finite a, .ninf => if 0 < a then .ninf else if a < 0 then .pinf else .nan
  | .pinf, .finite b => if 0 < b then .pinf else if b < 0 then .ninf else .nan
  | .ninf, .finite b => if 0 < b then .ninf else if b < 0 then .pinf else .nan
  | .pinf, .pinf => .pinf
  | .pinf, .ninf => .ninf
  | .ninf, .pinf => .ninf
  | .ninf, .ninf => .pinf

/-- Python `/` by a float literal (the program only divides by the literals
`1.7` and `100.0`, never zero, so the zero-divisor case is unreachable). -/
def PyFloat.divC (x : PyFloat) (c : ℚ) : PyFloat :=
  match x with
  | .nan => .nan
  | .finite a => .finite (a / c)
  | .pinf => if 0 < c then .pinf else .ninf
  | .ninf => if 0 < c then .ninf else .pinf

/-- Python `min(a, b)`: keeps `a` unless `b < a` — so `min(a, NaN) = a` and
`min(NaN, b) = NaN`. -/
def PyFloat.pymin (a b : PyFloat) : PyFloat := if PyFloat.lt b a then b else a

/-- Python `max(a, b)`: keeps `a` unless `b > a` — so `max(a, NaN) = a` and
`max(NaN, b) = NaN`. -/
def PyFloat.pymax (a b : PyFloat) : PyFloat := if PyFloat.gt b a then b else a

/-- An exception escaping the serving flow's inference: either the app's own
`CustomException` (carrying its message), or a built-in Python exception such
as the `ValueError` that `int(round(·))` raises on NaN. -/
inductive AppErr where
  | custom (msg : String)
  | pyerr (msg : String)
deriving DecidableEq, Repr

/-- The dictionary returned by `_infer_missing_features`, with float-typed
entries kept as Python floats (so NaN inputs propagate rather than being
ruled out by the model). -/
structure FeaturesF where
  Location : ℕ
  MinTemp : PyFloat
  MaxTemp : PyFloat
  Rainfall : PyFloat
  Evaporation : PyFloat
  Sunshine : PyFloat
  WindGustDir : ℕ
  WindGustSpeed : ℤ
  WindDir9am : ℕ
  WindDir3pm : ℕ
  WindSpeed9am : ℤ
  WindSpeed3pm : ℤ
  Humidity9am : ℤ
  Humidity3pm : ℤ
  Pressure9am : PyFloat
  Pressure3pm : PyFloat
  Cloud9am : ℤ
  Cloud3pm : ℤ
  Temp9am : PyFloat
  Temp3pm : PyFloat
  RainToday : ℕ
  Year : ℕ
  Month : ℕ
  Day : ℕ
deriving DecidableEq, Repr

/-- `_parse_float` from `app.py`, over an abstract float parser `pf` standing
for CPython's `float(s)` (whose full grammar — scientific notation, inf/nan,
whitespace, underscores, Unicode digits — is not re-implemented here; the
theorems about this pipeline hold for every parser). -/
def parse_floatF (pf : String → Option PyFloat) (name : String) (value : String) :
    Except AppErr PyFloat :=
  match pf value with
  | some x => .ok x
  | none => .error (.custom (name ++ ": value must be numeric."))

/-- `_parse_float_in_range` from `app.py` over the abstract parser: the range
test is Python's `x < lo or x > hi`, which NaN never satisfies. -/
def parse_float_in_rangeF (pf : String → Option PyFloat) (name : String)
    (value : String) (lo hi : ℚ) : Except AppErr PyFloat :=
  match parse_floatF pf name value with
  | .error e => .error e
  | .ok x =>
      if x.lt (.finite lo) || x.gt (.finite hi) then
        .error (.custom (name ++ ": out of range."))
      else .ok x

/-- `_parse_int_in_range` from `app.py` over the abstract parser:
`int(round(x))` succeeds on finite floats and raises a built-in error on NaN
or an infinity (only NaN can reach it — infinities fail the range test). -/
def parse_int_in_rangeF (pf : String → Option PyFloat) (name : String)
    (value : String) (lo hi : ℚ) : Except AppErr ℤ :=
  match parse_float_in_rangeF pf name value lo hi with
  | .error e => .error e
  | .ok (.finite q) => .ok (pyRound q)
  | .ok .nan => .error (.pyerr "cannot convert float NaN to integer")
  | .ok .pinf => .error (.pyerr "cannot convert float infinity to integer")
  | .ok .ninf => .error (.pyerr "cannot convert float infinity to integer")

/-- `_parse_date` from `app.py`, over an abstract date parser `pd` standing
for `datetime.date.fromisoformat`. -/
def parse_dateF (pd : String → Option PyDate) (value : String) :
    Except AppErr PyDate :=
  match pd value with
  | some d => .ok d
  | none => .error (.custom "Date: invalid format (expected YYYY-MM-DD).")

/-- The derivation block of `_infer_missing_features` over Python floats,
line for line from `app.py`: the same arithmetic as `inferFromParsed`, with
NaN allowed to flow through the float operations (none of which raise). -/
def inferFromParsedF (loc : String) (date : PyDate) (min_temp max_temp : PyFloat)
    (hum_3pm spd_3pm : ℤ) (rainfall : PyFloat) : FeaturesF :=
  let year := date.year
  let month := date.month
  let day := date.day
  let season := season_of month
  let temp3pm := PyFloat.pymin max_temp (PyFloat.pymax min_temp
      ((min_temp.add ((PyFloat.finite 0.7).mul max_temp)).divC 1.7))
  let temp9am := PyFloat.pymax min_temp (PyFloat.pymin max_temp
      (((PyFloat.finite 0.6).mul min_temp).add ((PyFloat.finite 0.4).mul max_temp)))
  let sunshine := PyFloat.finite (sunshine_of season)
  let cloud3pm0 : ℤ := pyRound (((hum_3pm : ℚ) / 100.0) * 8)
  let cloud3pm : ℤ := max 0 (min 8 cloud3pm0)
  let cloud9am := cloud3pm
  let pressure3pm := PyFloat.finite (pyRound1 (1015.0 - 0.08 * ((hum_3pm : ℚ) - 50)))
  let pressure9am := pressure3pm
  let dir3pm := prevailing_dir_for_location loc
  let gust_speed := gustSpeedOf spd_3pm
  let spd_9am : ℤ := max 0 (spd_3pm - 3)
  let evaporation := PyFloat.pymax (PyFloat.finite 0.0)
      (((PyFloat.finite 0.12).mul sunshine).add
        ((PyFloat.finite 0.03).mul (max_temp.sub min_temp)))
  let rain_today := if rainfall.gt (PyFloat.finite 0.2) then "Yes" else "No"
  let loc_enc := LOCATION_MAP_get loc 0
  let dir3pm_enc := WIND_DIR_MAP_get dir3pm (WIND_DIR_MAP_get "SW" 0)
  let dir9am_enc := dir3pm_enc
  let gust_dir_enc := dir3pm_enc
  let rain_today_enc := YES_NO_MAP rain_today
  ⟨loc_enc, min_temp, max_temp, rainfall, evaporation, sunshine,
   gust_dir_enc, gust_speed, dir9am_enc, dir3pm_enc, spd_9am, spd_3pm,
   hum_3pm, hum_3pm, pressure9am, pressure3pm, cloud9am, cloud3pm,
   temp9am, temp3pm, rain_today_enc, year, month, day⟩

/-- `_infer_missing_features` from `app.py` over the abstract float and date
parsers, parses in source order, first raise wins. -/
def infer_missing_featuresF (pf : String → Option PyFloat)
    (pd : String → Option PyDate) (todayStr : String) (form : Form) :
    Except AppErr FeaturesF :=
  let loc := formGet form "Location" "Sydney"
  match parse_dateF pd (formGet form "Date" todayStr) with
  | .error e => .error e
  | .ok date =>
  match parse_float_in_rangeF pf "MinTemp" (formGet form "MinTemp" "13.0") (-10) 45 with
  | .error e => .error e
  | .ok min_temp =>
  match parse_float_in_rangeF pf "MaxTemp" (formGet form "MaxTemp" "23.0") (-10) 50 with
  | .error e => .error e
  | .ok max_temp =>
  match parse_int_in_rangeF pf "Humidity3pm" (formGet form "Humidity3pm" "55") 0 100 with
  | .error e => .error e
  | .ok hum_3pm =>
  match parse_int_in_rangeF pf "WindSpeed3pm" (formGet form "WindSpeed3pm" "20") 0 100 with
  | .error e => .error e
  | .ok spd_3pm =>
  match parse_float_in_rangeF pf "Rainfall" (formGet form "Rainfall" "0.0") 0 200 with
  | .error e => .error e
  | .ok rainfall =>
    .ok (inferFromParsedF loc date min_temp max_temp hum_3pm spd_3pm rainfall)

/-- A numeric form field passes the code's validation: if a value was
supplied, the float parser accepts it and the parsed value fails Python's
`x < lo or x > hi` test (which NaN always fails, i.e. NaN passes validation). -/
def floatFieldOkF (pf : String → Option PyFloat) (v : Option String)
    (lo hi : ℚ) : Prop :=
  ∀ s, v = some s →
    ∃ x, pf s = some x ∧ (x.lt (.finite lo) || x.gt (.finite hi)) = false

/-- An integer-converted form field fully succeeds: if a value was supplied,
it parses to a finite float in range (NaN would pass validation but blow up
in `int(round(·))`). -/
def intFieldOkF (pf : String → Option PyFloat) (v : Option String)
    (lo hi : ℚ) : Prop :=
  ∀ s, v = some s →
    ∃ q : ℚ, pf s = some (.finite q) ∧
      ((PyFloat.finite q).lt (.finite lo) || (PyFloat.finite q).gt (.finite hi)) = false

/-- The date form field passes validation: if a value was supplied, the date
parser accepts it. -/
def dateFieldOkF (pd : String → Option PyDate) (v : Option String) : Prop :=
  ∀ s, v = some s → ∃ d, pd s = some d

/-- A concrete stand-in for CPython's `float()` adequate for the strings the
counterexample and witness exercise: plain decimal strings via `pyFloat`,
plus the `"nan"` literal, which CPython accepts and maps to NaN. -/
def pyFloatN (s : String) : Option PyFloat :=
  if s = "nan" then some .nan else (pyFloat s).map .finite

/-- A form posting `Humidity3pm = "nan"` (accepted by `float()`, passes the
range test) and `Rainfall = "x"` (non-numeric). -/
def nanForm : Form :=
  fun k =>
    if k = "Humidity3pm" then some "nan"
    else if k = "Rainfall" then some "x"
    else none

end WeatherApp

namespace DataProc

/-!
Model of `src/data_processing.py`.  Each method's `try` body is a sequence of
pandas/sklearn/joblib calls whose outcome depends on the outside world (the
CSV on disk, the dataframe contents); the model abstracts each body as an
environment-supplied outcome, an `Except String Unit` whose error is the
underlying Python exception's description.  What the class itself adds — the
`except` clause wrapping the cause in `CustomException("Failed to …", e)`,
and `run()` invoking the four steps in order with Python's raise-aborts
semantics — is modelled exactly.
-/

/-- A `CustomException(message, cause)` as raised by every step of
`DataProcessing`: the descriptive stage message together with the original
exception, which the constructor stores for diagnostics. -/
structure CustomException where
  message : String
  cause : String
deriving DecidableEq, Repr

/-- The environment of one pipeline run: the outcome of each step's `try`
body, were it to be executed. -/
structure PipelineEnv where
  loadBody : Except String Unit
  preprocessBody : Except String Unit
  labelEncodeBody : Except String Unit
  splitBody : Except String Unit

/-- The `try`/`except` wrapper shared by all four `DataProcessing` methods:
run the body; on failure raise `CustomException(msg, e)` with the original
cause `e`. -/
def step (msg : String) (body : Except String Unit) : Except CustomException Unit :=
  match body with
  | .ok u => .ok u
  | .error e => .error ⟨msg, e⟩

/-- `DataProcessing.load_data`. -/
def load_data (env : PipelineEnv) : Except CustomException Unit :=
  step "Failed to load data" env.loadBody

/-- `DataProcessing.preprocess`. -/
def preprocess (env : PipelineEnv) : Except CustomException Unit :=
  step "Failed to preprocess data" env.preprocessBody

/-- `DataProcessing.label_encode`. -/
def label_encode (env : PipelineEnv) : Except CustomException Unit :=
  step "Failed to label encode data" env.labelEncodeBody

/-- `DataProcessing.split_data`. -/
def split_data (env : PipelineEnv) : Except CustomException Unit :=
  step "Failed to split data" env.splitBody

/-- `DataProcessing.run`: the four steps in order; a raise propagates and the
following calls never happen.  The first component records, in order, the
steps that were actually invoked. -/
def run (env : PipelineEnv) : List String × Except CustomException Unit :=
  match load_data env with
  | .error e => (["load_data"], .error e)
  | .ok _ =>
  match preprocess env with
  | .error e => (["load_data", "preprocess"], .error e)
  | .ok _ =>
  match label_encode env with
  | .error e => (["load_data", "preprocess", "label_encode"], .error e)
  | .ok _ =>
  match split_data env with
  | .error e => (["load_data", "preprocess", "label_encode", "split_data"], .error e)
  | .ok _ => (["load_data", "preprocess", "label_encode", "split_data"], .ok ())

end DataProc

namespace WeatherApp

/-- Decomposition of `infer_missing_features`: the call returns `.ok r`
exactly when all six validated parses succeed and `r` is the derivation block
applied to the parsed values. -/
theorem infer_ok_iff (t : String) (f : Form) (r : Features) :
    infer_missing_features t f = .ok r ↔
    ∃ d mn mx hum spd rain,
      parse_date (formGet f "Date" t) = .ok d ∧
      parse_float_in_range "MinTemp" (formGet f "MinTemp" "13.0") (-10) 45 = .ok mn ∧
      parse_float_in_range "MaxTemp" (formGet f "MaxTemp" "23.0") (-10) 50 = .ok mx ∧
      parse_int_in_range "Humidity3pm" (formGet f "Humidity3pm" "55") 0 100 = .ok hum ∧
      parse_int_in_range "WindSpeed3pm" (formGet f "WindSpeed3pm" "20") 0 100 = .ok spd ∧
      parse_float_in_range "Rainfall" (formGet f "Rainfall" "0.0") 0 200 = .ok rain ∧
      r = inferFromParsed (formGet f "Location" "Sydney") d mn mx hum spd rain := by
  unfold infer_missing_features
  constructor
  · intro h
    cases hd : parse_date (formGet f "Date" t) with
    | error e => rw [hd] at h; exact Except.noConfusion h
    | ok d =>
    rw [hd] at h
    cases h1 : parse_float_in_range "MinTemp" (formGet f "MinTemp" "13.0") (-10) 45 with
    | error e => rw [h1] at h; exact Except.noConfusion h
    | ok mn =>
    rw [h1] at h
    cases h2 : parse_float_in_range "MaxTemp" (formGet f "MaxTemp" "23.0") (-10) 50 with
    | error e => rw [h2] at h; exact Except.noConfusion h
    | ok mx =>
    rw [h2] at h
    cases h3 : parse_int_in_range "Humidity3pm" (formGet f "Humidity3pm" "55") 0 100 with
    | error e => rw [h3] at h; exact Except.noConfusion h
    | ok hum =>
    rw [h3] at h
    cases h4 : parse_int_in_range "WindSpeed3pm" (formGet f "WindSpeed3pm" "20") 0 100 with
    | error e => rw [h4] at h; exact Except.noConfusion h
    | ok spd =>
    rw [h4] at h
    cases h5 : parse_float_in_range "Rainfall" (formGet f "Rainfall" "0.0") 0 200 with
    | error e => rw [h5] at h; exact Except.noConfusion h
    | ok rain =>
    rw [h5] at h
    exact ⟨d, mn, mx, hum, spd, rain, rfl, rfl, rfl, rfl, rfl, rfl,
      (Except.ok.inj h).symm⟩
  · rintro ⟨d, mn, mx, hum, spd, rain, hd, h1, h2, h3, h4, h5, rfl⟩
    rw [hd, h1, h2, h3, h4, h5]

/-- `_parse_date` succeeds exactly when the string is a valid ISO date. -/
theorem parse_date_ok_iff (s : String) (d : PyDate) :
    parse_date s = .ok d ↔ parseDate s = some d := by
  unfold parse_date
  cases h : parseDate s <;> simp_all

/-- `_parse_float_in_range` succeeds exactly when the string parses to a float
inside `[lo, hi]`, and then returns that float. -/
theorem parse_float_in_range_ok_iff (n s : String) (lo hi x : ℚ) :
    parse_float_in_range n s lo hi = .ok x ↔
    pyFloat s = some x ∧ lo ≤ x ∧ x ≤ hi := by
  unfold parse_float_in_range parse_float
  cases h : pyFloat s with
  | none => simp
  | some y =>
    by_cases hb : y < lo ∨ y > hi
    · simp only [hb, if_true]
      constructor
      · intro hc; exact Except.noConfusion hc
      · rintro ⟨hy, hl, hr⟩
        cases hy
        rcases hb with hb | hb <;> linarith
    · simp only [hb, if_false]
      constructor
      · intro hc
        cases hc
        push_neg at hb
        exact ⟨rfl, hb.1, hb.2⟩
      · rintro ⟨hy, _, _⟩
        cases hy
        rfl

/-- `_parse_int_in_range` succeeds exactly when the string parses to a float
inside `[lo, hi]`, and then returns `int(round(x))`. -/
theorem parse_int_in_range_ok_iff (n s : String) (lo hi : ℚ) (y : ℤ) :
    parse_int_in_range n s lo hi = .ok y ↔
    ∃ x, pyFloat s = some x ∧ lo ≤ x ∧ x ≤ hi ∧ y = pyRound x := by
  unfold parse_int_in_range
  cases h : parse_float_in_range n s lo hi with
  | error e =>
    simp only
    constructor
    · intro hc; exact Except.noConfusion hc
    · rintro ⟨x, hx, hl, hr, _⟩
      rw [(parse_float_in_range_ok_iff n s lo hi x).2 ⟨hx, hl, hr⟩] at h
      exact Except.noConfusion h
  | ok x =>
    rw [parse_float_in_range_ok_iff] at h
    simp only
    constructor
    · intro hc
      cases hc
      exact ⟨x, h.1, h.2.1, h.2.2, rfl⟩
    · rintro ⟨x', hx', hl', hr', rfl⟩
      rw [h.1] at hx'
      cases hx'
      rfl

/-- `pyRound` never moves below an integer lower bound. -/
theorem le_pyRound (a : ℤ) (x : ℚ) (h : (a : ℚ) ≤ x) : a ≤ pyRound x := by
  have hf : a ≤ ⌊x⌋ := Int.le_floor.2 h
  simp only [pyRound]
  split_ifs <;> omega

/-- `pyRound` never moves above an integer upper bound. -/
theorem pyRound_le (b : ℤ) (x : ℚ) (h : x ≤ (b : ℚ)) : pyRound x ≤ b := by
  have hf : ⌊x⌋ ≤ b := by
    have := Int.floor_le_floor h
    simpa using this
  have hplus : ¬(x - (⌊x⌋ : ℚ) < 1/2) → ⌊x⌋ + 1 ≤ b := by
    intro hr
    push_neg at hr
    have hxq : (⌊x⌋ : ℚ) + 1/2 ≤ x := by linarith
    have : ((⌊x⌋ : ℚ)) < (b : ℚ) := by linarith
    have : ⌊x⌋ < b := by exact_mod_cast this
    omega
  simp only [pyRound]
  split_ifs with hr1 hr2 hev
  · exact hf
  · exact hplus hr1
  · exact hf
  · exact hplus hr1

/-- When `lo ≤ hi`, clamping in either nesting order agrees. -/
theorem min_max_eq_clampSpec (lo hi x : ℚ) (h : lo ≤ hi) :
    min hi (max lo x) = clampSpec lo hi x := by
  unfold clampSpec
  rcases le_total x lo with h1 | h1 <;> rcases le_total x hi with h2 | h2 <;>
    simp only [min_def, max_def] <;> split_ifs <;> linarith

/-- Claim C1, counterexample: the location vocabulary does not have 48
entries — it has 47, so the claimed mapping of 48 names onto [0,47] fails. -/
theorem claim_C1_counterexample : LOCATIONS.length ≠ 48 := by decide

/-- Claim C1 (amended): the location vocabulary is a fixed mapping of 47
location names, listed in alphabetical order, each mapped to a unique integer
code; the codes are exactly the integers in [0,46], and re-encoding the
decoded label at each code returns that code (a bijection). -/
theorem claim_C1_location_vocabulary :
    LOCATIONS.length = 47 ∧
    chainStrLt LOCATIONS = true ∧
    LOCATIONS.map (fun s => LOCATION_MAP_get s 0) = List.range 47 := by
  refine ⟨by decide, by decide, by decide⟩

/-- Claim C2, counterexample: the encoded feature row does not have 23
entries — evaluated at a concrete feature set, its length is 24. -/
theorem claim_C2_counterexample :
    (build_feature_vector_from_inferred defaultFeat).length ≠ 23 := by decide

/-- Claim C2 (amended): the encoded feature row is a single fixed-length
ordered numeric row whose entries are exactly, in order: location, minTemp,
maxTemp, rainfall, evaporation, sunshine, windGustDir, windGustSpeed,
windDir9am, windDir3pm, windSpeed9am, windSpeed3pm, humidity9am, humidity3pm,
pressure9am, pressure3pm, cloud9am, cloud3pm, temp9am, temp3pm, rainToday,
year, month, day — and its length is 24 (the spec's own field enumeration),
not 23. -/
theorem claim_C2_feature_row_order (vals : Features) :
    build_feature_vector_from_inferred vals =
      [(vals.Location : ℚ), vals.MinTemp, vals.MaxTemp, vals.Rainfall,
       vals.Evaporation, vals.Sunshine, (vals.WindGustDir : ℚ),
       (vals.WindGustSpeed : ℚ), (vals.WindDir9am : ℚ), (vals.WindDir3pm : ℚ),
       (vals.WindSpeed9am : ℚ), (vals.WindSpeed3pm : ℚ), (vals.Humidity9am : ℚ),
       (vals.Humidity3pm : ℚ), vals.Pressure9am, vals.Pressure3pm,
       (vals.Cloud9am : ℚ), (vals.Cloud3pm : ℚ), vals.Temp9am, vals.Temp3pm,
       (vals.RainToday : ℚ), (vals.Year : ℚ), (vals.Month : ℚ), (vals.Day : ℚ)] ∧
    (build_feature_vector_from_inferred vals).length = 24 :=
  ⟨rfl, rfl⟩

/-- Claim C3: for every validated input, the derived rainToday field encodes
to 1 iff the validated rainfall exceeds 0.2, to 0 otherwise; rainfall exactly
0.2 encodes to 0 ("No"). -/
theorem claim_C3_rain_today_threshold (t : String) (f : Form) (r : Features)
    (h : infer_missing_features t f = .ok r) :
    (r.RainToday = 1 ↔ r.Rainfall > 0.2) ∧
    (r.RainToday = 0 ↔ ¬ r.Rainfall > 0.2) ∧
    (r.Rainfall = 0.2 → r.RainToday = 0) := by
  rcases (infer_ok_iff t f r).1 h with ⟨d, mn, mx, hum, spd, rain, -, -, -, -, -, -, rfl⟩
  have hR : (inferFromParsed (formGet f "Location" "Sydney") d mn mx hum spd rain).RainToday =
      (if rain > 0.2 then 1 else 0) := by
    simp only [inferFromParsed, YES_NO_MAP]
    split_ifs <;> simp_all
  have hF : (inferFromParsed (formGet f "Location" "Sydney") d mn mx hum spd rain).Rainfall =
      rain := by
    simp only [inferFromParsed]
  refine ⟨?_, ?_, ?_⟩
  · rw [hR, hF]; split_ifs with hgt <;> simp [hgt]
  · rw [hR, hF]; split_ifs with hgt <;> simp [hgt]
  · rw [hR, hF]
    intro he
    split_ifs with hgt
    · exfalso
      rw [he] at hgt
      exact absurd hgt (by norm_num)
    · rfl

/-- Witness for claim C3: posting `Rainfall = "0.2"` yields rainToday code 0. -/
theorem claim_C3_witness :
    infer_missing_features "2026-10-12" rainBoundaryForm = .ok rainBoundaryFeat ∧
    rainBoundaryFeat.RainToday = 0 :=
  have h : infer_missing_features "2026-10-12" rainBoundaryForm = .ok rainBoundaryFeat := by
    with_unfolding_all rfl
  ⟨h, (claim_C3_rain_today_threshold _ _ _ h).2.2 (by with_unfolding_all rfl)⟩

/-- Claim C4: for every validated input with minTemp ≤ maxTemp, temp3pm is
`(minTemp + 0.7·maxTemp)/1.7` clamped into `[minTemp, maxTemp]`, temp9am is
`0.6·minTemp + 0.4·maxTemp` clamped into `[minTemp, maxTemp]`, and both lie
within `[minTemp, maxTemp]`. -/
theorem claim_C4_temperature_clamps (t : String) (f : Form) (r : Features)
    (h : infer_missing_features t f = .ok r) (hle : r.MinTemp ≤ r.MaxTemp) :
    r.Temp3pm = clampSpec r.MinTemp r.MaxTemp ((r.MinTemp + 0.7 * r.MaxTemp) / 1.7) ∧
    r.Temp9am = clampSpec r.MinTemp r.MaxTemp (0.6 * r.MinTemp + 0.4 * r.MaxTemp) ∧
    r.MinTemp ≤ r.Temp3pm ∧ r.Temp3pm ≤ r.MaxTemp ∧
    r.MinTemp ≤ r.Temp9am ∧ r.Temp9am ≤ r.MaxTemp := by
  rcases (infer_ok_iff t f r).1 h with ⟨d, mn, mx, hum, spd, rain, -, -, -, -, -, -, rfl⟩
  simp only [inferFromParsed] at hle ⊢
  refine ⟨min_max_eq_clampSpec _ _ _ hle, rfl, ?_, ?_, ?_, ?_⟩
  · rw [min_max_eq_clampSpec _ _ _ hle]
    exact le_max_left _ _
  · rw [min_max_eq_clampSpec _ _ _ hle]
    exact max_le hle (min_le_left _ _)
  · exact le_max_left _ _
  · exact max_le hle (min_le_left _ _)

/-- Witness for claim C4: the empty form's defaults give 13 ≤ 23 and a
temp3pm equal to the clamped heuristic value. -/
theorem claim_C4_witness :
    infer_missing_features "2026-10-12" emptyForm = .ok defaultFeat ∧
    defaultFeat.MinTemp ≤ defaultFeat.MaxTemp ∧
    defaultFeat.Temp3pm = clampSpec defaultFeat.MinTemp defaultFeat.MaxTemp
      ((defaultFeat.MinTemp + 0.7 * defaultFeat.MaxTemp) / 1.7) :=
  have h : infer_missing_features "2026-10-12" emptyForm = .ok defaultFeat := by
    with_unfolding_all rfl
  have hle : defaultFeat.MinTemp ≤ defaultFeat.MaxTemp := by
    with_unfolding_all decide
  ⟨h, hle, (claim_C4_temperature_clamps _ _ _ h hle).1⟩

/-- Claim C5: every validated humidity3pm lies in [0,100]; cloud3pm is
`round(humidity3pm/100·8)` clamped to [0,8], cloud9am copies it, and both lie
in [0,8]. -/
theorem claim_C5_cloud_from_humidity (t : String) (f : Form) (r : Features)
    (h : infer_missing_features t f = .ok r) :
    0 ≤ r.Humidity3pm ∧ r.Humidity3pm ≤ 100 ∧
    r.Cloud3pm = max 0 (min 8 (pyRound (((r.Humidity3pm : ℚ) / 100.0) * 8))) ∧
    r.Cloud9am = r.Cloud3pm ∧ 0 ≤ r.Cloud3pm ∧ r.Cloud3pm ≤ 8 := by
  rcases (infer_ok_iff t f r).1 h with ⟨d, mn, mx, hum, spd, rain, -, -, -, h3, -, -, rfl⟩
  rw [parse_int_in_range_ok_iff] at h3
  rcases h3 with ⟨x, -, hl, hr, rfl⟩
  simp only [inferFromParsed]
  refine ⟨le_pyRound 0 x (by exact_mod_cast hl), pyRound_le 100 x (by exact_mod_cast hr),
    trivial, trivial, le_max_left _ _, max_le (by norm_num) (min_le_left _ _)⟩

/-- Witness for claim C5: the empty form's default humidity (55) gives equal
9am/3pm cloud cover within [0,8]. -/
theorem claim_C5_witness :
    infer_missing_features "2026-10-12" emptyForm = .ok defaultFeat ∧
    defaultFeat.Cloud9am = defaultFeat.Cloud3pm ∧
    0 ≤ defaultFeat.Cloud3pm ∧ defaultFeat.Cloud3pm ≤ 8 :=
  have h : infer_missing_features "2026-10-12" emptyForm = .ok defaultFeat := by
    with_unfolding_all rfl
  have hc := claim_C5_cloud_from_humidity _ _ _ h
  ⟨h, hc.2.2.2.1, hc.2.2.2.2.1, hc.2.2.2.2.2⟩

/-- Claim C6: every validated windSpeed3pm lies in [0,100]; the gust speed is
`min(150, max(windSpeed3pm + 20, windSpeed3pm))`, the gust formula caps
windSpeed3pm = 140 at 150, and windSpeed9am is `max(0, windSpeed3pm − 3)`,
never negative. -/
theorem claim_C6_wind_speeds (t : String) (f : Form) (r : Features)
    (h : infer_missing_features t f = .ok r) :
    0 ≤ r.WindSpeed3pm ∧ r.WindSpeed3pm ≤ 100 ∧
    r.WindGustSpeed = min 150 (max (r.WindSpeed3pm + 20) r.WindSpeed3pm) ∧
    gustSpeedOf 140 = 150 ∧
    r.WindSpeed9am = max 0 (r.WindSpeed3pm - 3) ∧ 0 ≤ r.WindSpeed9am := by
  rcases (infer_ok_iff t f r).1 h with ⟨d, mn, mx, hum, spd, rain, -, -, -, -, h4, -, rfl⟩
  rw [parse_int_in_range_ok_iff] at h4
  rcases h4 with ⟨x, -, hl, hr, rfl⟩
  simp only [inferFromParsed]
  refine ⟨le_pyRound 0 x (by exact_mod_cast hl), pyRound_le 100 x (by exact_mod_cast hr),
    rfl, by decide, trivial, le_max_left _ _⟩

/-- Witness for claim C6: the empty form's default wind speed (20) gives gust
speed 40 and 9am speed 17. -/
theorem claim_C6_witness :
    infer_missing_features "2026-10-12" emptyForm = .ok defaultFeat ∧
    defaultFeat.WindGustSpeed =
      min 150 (max (defaultFeat.WindSpeed3pm + 20) defaultFeat.WindSpeed3pm) ∧
    defaultFeat.WindSpeed9am = max 0 (defaultFeat.WindSpeed3pm - 3) :=
  have h : infer_missing_features "2026-10-12" emptyForm = .ok defaultFeat := by
    with_unfolding_all rfl
  have hc := claim_C6_wind_speeds _ _ _ h
  ⟨h, hc.2.2.1, hc.2.2.2.2.1⟩

/-- Claim C9: there is no cross-field check relating minTemp and maxTemp:
whenever all six fields individually validate and maxTemp < minTemp, the
inference still succeeds, and the clamping order pins temp3pm to maxTemp and
temp9am to minTemp. -/
theorem claim_C9_no_cross_field_check (t : String) (f : Form) (d : PyDate)
    (mn mx : ℚ) (hum spd : ℤ) (rain : ℚ)
    (hd : parse_date (formGet f "Date" t) = .ok d)
    (h1 : parse_float_in_range "MinTemp" (formGet f "MinTemp" "13.0") (-10) 45 = .ok mn)
    (h2 : parse_float_in_range "MaxTemp" (formGet f "MaxTemp" "23.0") (-10) 50 = .ok mx)
    (h3 : parse_int_in_range "Humidity3pm" (formGet f "Humidity3pm" "55") 0 100 = .ok hum)
    (h4 : parse_int_in_range "WindSpeed3pm" (formGet f "WindSpeed3pm" "20") 0 100 = .ok spd)
    (h5 : parse_float_in_range "Rainfall" (formGet f "Rainfall" "0.0") 0 200 = .ok rain)
    (hgt : mx < mn) :
    infer_missing_features t f =
      .ok (inferFromParsed (formGet f "Location" "Sydney") d mn mx hum spd rain) ∧
    (inferFromParsed (formGet f "Location" "Sydney") d mn mx hum spd rain).Temp3pm = mx ∧
    (inferFromParsed (formGet f "Location" "Sydney") d mn mx hum spd rain).Temp9am = mn := by
  refine ⟨(infer_ok_iff t f _).2 ⟨d, mn, mx, hum, spd, rain, hd, h1, h2, h3, h4, h5, rfl⟩,
    ?_, ?_⟩
  · simp only [inferFromParsed]
    exact min_eq_left (le_trans (le_of_lt hgt) (le_max_left _ _))
  · simp only [inferFromParsed]
    exact max_eq_left (le_trans (min_le_left _ _) (le_of_lt hgt))

/-- Witness for claim C9: posting MinTemp 30 and MaxTemp 20 (inverted, both in
range) raises nothing, with temp3pm = 20 and temp9am = 30. -/
theorem claim_C9_witness :
    infer_missing_features "2026-10-12" invertedTempForm = .ok invertedTempFeat ∧
    invertedTempFeat.Temp3pm = 20 ∧ invertedTempFeat.Temp9am = 30 := by
  have h := claim_C9_no_cross_field_check "2026-10-12" invertedTempForm
    ⟨2026, 10, 12⟩ 30 20 55 20 0
    (by with_unfolding_all rfl) (by with_unfolding_all rfl) (by with_unfolding_all rfl)
    (by with_unfolding_all rfl) (by with_unfolding_all rfl) (by with_unfolding_all rfl)
    (by with_unfolding_all decide)
  with_unfolding_all exact ⟨h.1, h.2.1, h.2.2⟩

/-- Claim C8: for every validated input, the inferred 9am humidity is a copy
of the validated 3pm humidity. -/
theorem claim_C8_humidity9am_copy (t : String) (f : Form) (r : Features)
    (h : infer_missing_features t f = .ok r) : r.Humidity9am = r.Humidity3pm := by
  rcases (infer_ok_iff t f r).1 h with ⟨d, mn, mx, hum, spd, rain, -, -, -, -, -, -, rfl⟩
  simp only [inferFromParsed]

/-- Witness for claim C8: the empty form's inferred features satisfy
Humidity9am = Humidity3pm. -/
theorem claim_C8_witness :
    infer_missing_features "2026-10-12" emptyForm = .ok defaultFeat ∧
    defaultFeat.Humidity9am = defaultFeat.Humidity3pm :=
  have h : infer_missing_features "2026-10-12" emptyForm = .ok defaultFeat := by
    with_unfolding_all rfl
  ⟨h, claim_C8_humidity9am_copy _ _ _ h⟩

/-- `form.get(k, d)` when the field is absent. -/
theorem formGet_none {f : Form} {k d : String} (h : f k = none) :
    formGet f k d = d := by
  simp [formGet, h]

/-- `form.get(k, d)` when the field is present. -/
theorem formGet_some {f : Form} {k d s : String} (h : f k = some s) :
    formGet f k d = s := by
  simp [formGet, h]

/-- Python's range test on a finite float fails (i.e. the value is accepted)
exactly when the value lies in `[lo, hi]`. -/
theorem finite_range_check (a lo hi : ℚ) :
    ((PyFloat.finite a).lt (.finite lo) || (PyFloat.finite a).gt (.finite hi)) = false ↔
      lo ≤ a ∧ a ≤ hi := by
  simp [PyFloat.lt, PyFloat.gt, not_lt]

/-- An infinity never passes the range test against finite bounds. -/
theorem inf_range_check (lo hi : ℚ) :
    ((PyFloat.pinf.lt (.finite lo) || PyFloat.pinf.gt (.finite hi)) = true) ∧
    ((PyFloat.ninf.lt (.finite lo) || PyFloat.ninf.gt (.finite hi)) = true) := by
  constructor <;> simp [PyFloat.lt, PyFloat.gt]

/-- `_parse_float_in_range` over the abstract parser succeeds exactly when
the string parses and the value passes the range test. -/
theorem parse_float_in_rangeF_ok_iff (pf : String → Option PyFloat)
    (n s : String) (lo hi : ℚ) (x : PyFloat) :
    parse_float_in_rangeF pf n s lo hi = .ok x ↔
    pf s = some x ∧ (x.lt (.finite lo) || x.gt (.finite hi)) = false := by
  unfold parse_float_in_rangeF parse_floatF
  cases h : pf s with
  | none => simp
  | some y =>
    by_cases hb : (y.lt (.finite lo) || y.gt (.finite hi)) = true
    · simp only [hb, if_true]
      constructor
      · intro hc; exact Except.noConfusion hc
      · rintro ⟨hy, hc⟩
        injection hy with hy
        subst hy
        rw [hb] at hc
        exact Bool.noConfusion hc
    · rw [Bool.not_eq_true] at hb
      simp only [hb, Bool.false_eq_true, if_false]
      constructor
      · intro hc
        cases hc
        exact ⟨rfl, hb⟩
      · rintro ⟨hy, -⟩
        injection hy with hy
        rw [hy]

/-- `_parse_int_in_range` over the abstract parser succeeds exactly when the
string parses to a finite float passing the range test, and then returns
`int(round(·))` of it. -/
theorem parse_int_in_rangeF_ok_iff (pf : String → Option PyFloat)
    (n s : String) (lo hi : ℚ) (y : ℤ) :
    parse_int_in_rangeF pf n s lo hi = .ok y ↔
    ∃ q : ℚ, pf s = some (.finite q) ∧
      ((PyFloat.finite q).lt (.finite lo) || (PyFloat.finite q).gt (.finite hi)) = false ∧
      y = pyRound q := by
  unfold parse_int_in_rangeF
  cases h : parse_float_in_rangeF pf n s lo hi with
  | error e =>
    simp only
    constructor
    · intro hc; exact Except.noConfusion hc
    · rintro ⟨q, hq, hc, -⟩
      rw [(parse_float_in_rangeF_ok_iff pf n s lo hi (.finite q)).2 ⟨hq, hc⟩] at h
      exact Except.noConfusion h
  | ok x =>
    rw [parse_float_in_rangeF_ok_iff] at h
    cases x with
    | finite q =>
      simp only
      constructor
      · intro hc
        cases hc
        exact ⟨q, h.1, h.2, rfl⟩
      · rintro ⟨q', hq', -, rfl⟩
        rw [h.1] at hq'
        injection hq' with hq'
        injection hq' with hq'
        rw [hq']
    | pinf =>
      simp only
      constructor
      · intro hc; exact Except.noConfusion hc
      · rintro ⟨q', hq', -, -⟩
        rw [h.1] at hq'
        injection hq' with hq'
        exact PyFloat.noConfusion hq'
    | ninf =>
      simp only
      constructor
      · intro hc; exact Except.noConfusion hc
      · rintro ⟨q', hq', -, -⟩
        rw [h.1] at hq'
        injection hq' with hq'
        exact PyFloat.noConfusion hq'
    | nan =>
      simp only
      constructor
      · intro hc; exact Except.noConfusion hc
      · rintro ⟨q', hq', -, -⟩
        rw [h.1] at hq'
        injection hq' with hq'
        exact PyFloat.noConfusion hq'

/-- `_parse_date` over the abstract parser succeeds exactly when the parser
accepts the string. -/
theorem parse_dateF_ok_iff (pd : String → Option PyDate) (s : String) (d : PyDate) :
    parse_dateF pd s = .ok d ↔ pd s = some d := by
  unfold parse_dateF
  cases h : pd s <;> simp_all

/-- A default string that parses to an in-range finite value makes the float
parse of that default succeed with it. -/
theorem parse_float_in_rangeF_default (pf : String → Option PyFloat)
    (n dflt : String) (lo hi qd : ℚ) (hdflt : pf dflt = some (.finite qd))
    (hc : ((PyFloat.finite qd).lt (.finite lo) || (PyFloat.finite qd).gt (.finite hi)) = false) :
    parse_float_in_rangeF pf n dflt lo hi = .ok (.finite qd) :=
  (parse_float_in_rangeF_ok_iff pf n dflt lo hi (.finite qd)).2 ⟨hdflt, hc⟩

/-- A default string that parses to an in-range finite value makes the int
parse of that default succeed with its rounding. -/
theorem parse_int_in_rangeF_default (pf : String → Option PyFloat)
    (n dflt : String) (lo hi qd : ℚ) (hdflt : pf dflt = some (.finite qd))
    (hc : ((PyFloat.finite qd).lt (.finite lo) || (PyFloat.finite qd).gt (.finite hi)) = false) :
    parse_int_in_rangeF pf n dflt lo hi = .ok (pyRound qd) :=
  (parse_int_in_rangeF_ok_iff pf n dflt lo hi (pyRound qd)).2 ⟨qd, hdflt, hc, rfl⟩

/-- `pyRound` is the identity on integers. -/
theorem pyRound_intCast (z : ℤ) : pyRound (z : ℚ) = z :=
  le_antisymm (pyRound_le z (z : ℚ) le_rfl) (le_pyRound z (z : ℚ) le_rfl)

/-- Decomposition of `infer_missing_featuresF`: the call returns `.ok r`
exactly when all six validated parses succeed and `r` is the derivation block
applied to the parsed values. -/
theorem inferF_ok_iff (pf : String → Option PyFloat) (pd : String → Option PyDate)
    (t : String) (f : Form) (r : FeaturesF) :
    infer_missing_featuresF pf pd t f = .ok r ↔
    ∃ d mn mx hum spd rain,
      parse_dateF pd (formGet f "Date" t) = .ok d ∧
      parse_float_in_rangeF pf "MinTemp" (formGet f "MinTemp" "13.0") (-10) 45 = .ok mn ∧
      parse_float_in_rangeF pf "MaxTemp" (formGet f "MaxTemp" "23.0") (-10) 50 = .ok mx ∧
      parse_int_in_rangeF pf "Humidity3pm" (formGet f "Humidity3pm" "55") 0 100 = .ok hum ∧
      parse_int_in_rangeF pf "WindSpeed3pm" (formGet f "WindSpeed3pm" "20") 0 100 = .ok spd ∧
      parse_float_in_rangeF pf "Rainfall" (formGet f "Rainfall" "0.0") 0 200 = .ok rain ∧
      r = inferFromParsedF (formGet f "Location" "Sydney") d mn mx hum spd rain := by
  unfold infer_missing_featuresF
  constructor
  · intro h
    cases hd : parse_dateF pd (formGet f "Date" t) with
    | error e => rw [hd] at h; exact Except.noConfusion h
    | ok d =>
    rw [hd] at h
    cases h1 : parse_float_in_rangeF pf "MinTemp" (formGet f "MinTemp" "13.0") (-10) 45 with
    | error e => rw [h1] at h; exact Except.noConfusion h
    | ok mn =>
    rw [h1] at h
    cases h2 : parse_float_in_rangeF pf "MaxTemp" (formGet f "MaxTemp" "23.0") (-10) 50 with
    | error e => rw [h2] at h; exact Except.noConfusion h
    | ok mx =>
    rw [h2] at h
    cases h3 : parse_int_in_rangeF pf "Humidity3pm" (formGet f "Humidity3pm" "55") 0 100 with
    | error e => rw [h3] at h; exact Except.noConfusion h
    | ok hum =>
    rw [h3] at h
    cases h4 : parse_int_in_rangeF pf "WindSpeed3pm" (formGet f "WindSpeed3pm" "20") 0 100 with
    | error e => rw [h4] at h; exact Except.noConfusion h
    | ok spd =>
    rw [h4] at h
    cases h5 : parse_float_in_rangeF pf "Rainfall" (formGet f "Rainfall" "0.0") 0 200 with
    | error e => rw [h5] at h; exact Except.noConfusion h
    | ok rain =>
    rw [h5] at h
    exact ⟨d, mn, mx, hum, spd, rain, rfl, rfl, rfl, rfl, rfl, rfl,
      (Except.ok.inj h).symm⟩
  · rintro ⟨d, mn, mx, hum, spd, rain, hd, h1, h2, h3, h4, h5, rfl⟩
    rw [hd, h1, h2, h3, h4, h5]

/-- With a default that parses to an in-range finite value, the float parse
of a field succeeds exactly when the field passes validation. -/
theorem float_fieldF_exists_iff (pf : String → Option PyFloat) (f : Form)
    (k dflt : String) (lo hi qd : ℚ) (hdflt : pf dflt = some (.finite qd))
    (hc : ((PyFloat.finite qd).lt (.finite lo) || (PyFloat.finite qd).gt (.finite hi)) = false) :
    (∃ x, parse_float_in_rangeF pf k (formGet f k dflt) lo hi = .ok x) ↔
      floatFieldOkF pf (f k) lo hi := by
  cases hk : f k with
  | none =>
    rw [formGet_none hk]
    constructor
    · intro _ s hs
      exact Option.noConfusion hs
    · intro _
      exact ⟨.finite qd, parse_float_in_rangeF_default pf k dflt lo hi qd hdflt hc⟩
  | some s =>
    rw [formGet_some hk]
    constructor
    · rintro ⟨x, hx⟩ s' hs'
      injection hs' with hss
      subst hss
      exact ⟨x, (parse_float_in_rangeF_ok_iff pf k s lo hi x).1 hx⟩
    · intro hok
      rcases hok s rfl with ⟨x, hx, hcx⟩
      exact ⟨x, (parse_float_in_rangeF_ok_iff pf k s lo hi x).2 ⟨hx, hcx⟩⟩

/-- With a default that parses to an in-range finite value, the int parse of
a field succeeds exactly when the field fully succeeds (finite and in
range). -/
theorem int_fieldF_exists_iff (pf : String → Option PyFloat) (f : Form)
    (k dflt : String) (lo hi qd : ℚ) (hdflt : pf dflt = some (.finite qd))
    (hc : ((PyFloat.finite qd).lt (.finite lo) || (PyFloat.finite qd).gt (.finite hi)) = false) :
    (∃ y, parse_int_in_rangeF pf k (formGet f k dflt) lo hi = .ok y) ↔
      intFieldOkF pf (f k) lo hi := by
  cases hk : f k with
  | none =>
    rw [formGet_none hk]
    constructor
    · intro _ s hs
      exact Option.noConfusion hs
    · intro _
      exact ⟨pyRound qd, parse_int_in_rangeF_default pf k dflt lo hi qd hdflt hc⟩
  | some s =>
    rw [formGet_some hk]
    constructor
    · rintro ⟨y, hy⟩ s' hs'
      injection hs' with hss
      subst hss
      rcases (parse_int_in_rangeF_ok_iff pf k s lo hi y).1 hy with ⟨q, hq, hcq, -⟩
      exact ⟨q, hq, hcq⟩
    · intro hok
      rcases hok s rfl with ⟨q, hq, hcq⟩
      exact ⟨pyRound q, (parse_int_in_rangeF_ok_iff pf k s lo hi (pyRound q)).2
        ⟨q, hq, hcq, rfl⟩⟩

/-- With a parseable default date string, the date parse succeeds exactly
when the date field passes validation. -/
theorem date_fieldF_exists_iff (pd : String → Option PyDate) (f : Form)
    (t : String) (dt : PyDate) (ht : pd t = some dt) :
    (∃ d, parse_dateF pd (formGet f "Date" t) = .ok d) ↔
      dateFieldOkF pd (f "Date") := by
  cases hk : f "Date" with
  | none =>
    rw [formGet_none hk]
    constructor
    · intro _ s hs
      exact Option.noConfusion hs
    · intro _
      exact ⟨dt, (parse_dateF_ok_iff pd t dt).2 ht⟩
  | some s =>
    rw [formGet_some hk]
    constructor
    · rintro ⟨d, hd⟩ s' hs'
      injection hs' with hss
      subst hss
      exact ⟨d, (parse_dateF_ok_iff pd s d).1 hd⟩
    · intro hok
      rcases hok s rfl with ⟨d, hd⟩
      exact ⟨d, (parse_dateF_ok_iff pd s d).2 hd⟩

/-- When a field never receives NaN from the parser, passing validation and
fully succeeding coincide: a non-NaN value that passes the range test against
finite bounds is finite. -/
theorem floatOk_iff_intOk (pf : String → Option PyFloat) (v : Option String)
    (lo hi : ℚ) (hno : ∀ s, v = some s → pf s ≠ some .nan) :
    floatFieldOkF pf v lo hi ↔ intFieldOkF pf v lo hi := by
  constructor
  · intro hok s hs
    rcases hok s hs with ⟨x, hx, hcx⟩
    cases x with
    | finite q => exact ⟨q, hx, hcx⟩
    | nan => exact absurd hx (hno s hs)
    | pinf =>
      rw [(inf_range_check lo hi).1] at hcx
      exact Bool.noConfusion hcx
    | ninf =>
      rw [(inf_range_check lo hi).2] at hcx
      exact Bool.noConfusion hcx
  · intro hok s hs
    rcases hok s hs with ⟨q, hq, hcq⟩
    exact ⟨.finite q, hq, hcq⟩

/-- A field that fails validation makes the float parse raise a
`CustomException` (non-numeric or out-of-range message). -/
theorem float_fieldF_custom_of_not_ok (pf : String → Option PyFloat) (f : Form)
    (k dflt : String) (lo hi : ℚ) (hbad : ¬ floatFieldOkF pf (f k) lo hi) :
    ∃ m, parse_float_in_rangeF pf k (formGet f k dflt) lo hi = .error (.custom m) := by
  unfold floatFieldOkF at hbad
  push_neg at hbad
  rcases hbad with ⟨s, hs, hsx⟩
  rw [formGet_some hs]
  unfold parse_float_in_rangeF parse_floatF
  cases hx : pf s with
  | none => exact ⟨k ++ ": value must be numeric.", rfl⟩
  | some x =>
    have hc : (x.lt (.finite lo) || x.gt (.finite hi)) = true := by
      by_contra hcf
      rw [Bool.not_eq_true] at hcf
      exact hsx x hx hcf
    simp only [hc, if_true]
    exact ⟨k ++ ": out of range.", rfl⟩

/-- A field that fails validation makes the int parse raise the same
`CustomException` (the error precedes the `int(round(·))` conversion). -/
theorem int_fieldF_custom_of_not_ok (pf : String → Option PyFloat) (f : Form)
    (k dflt : String) (lo hi : ℚ) (hbad : ¬ floatFieldOkF pf (f k) lo hi) :
    ∃ m, parse_int_in_rangeF pf k (formGet f k dflt) lo hi = .error (.custom m) := by
  rcases float_fieldF_custom_of_not_ok pf f k dflt lo hi hbad with ⟨m, hm⟩
  refine ⟨m, ?_⟩
  unfold parse_int_in_rangeF
  rw [hm]

/-- A date field that fails validation makes the date parse raise a
`CustomException`. -/
theorem date_fieldF_custom_of_not_ok (pd : String → Option PyDate) (f : Form)
    (t : String) (hbad : ¬ dateFieldOkF pd (f "Date")) :
    ∃ m, parse_dateF pd (formGet f "Date" t) = .error (.custom m) := by
  unfold dateFieldOkF at hbad
  push_neg at hbad
  rcases hbad with ⟨s, hs, hsd⟩
  rw [formGet_some hs]
  unfold parse_dateF
  cases hx : pd s with
  | none => exact ⟨"Date: invalid format (expected YYYY-MM-DD).", rfl⟩
  | some d => exact absurd rfl (by rw [hx] at hsd; exact hsd d)

/-- Claim C10, counterexample: the claim's biconditional "raises a
CustomException iff a supplied value is non-numeric, outside its configured
range, or an unparseable date" fails at a concrete reachable input.  Posting
`Humidity3pm = "nan"` (CPython's `float("nan")` returns NaN, which the range
test `x < lo or x > hi` never rejects) together with the non-numeric
`Rainfall = "x"`, the inference raises the built-in ValueError from
`int(round(nan))` before ever parsing Rainfall — so a supplied value IS
non-numeric yet no CustomException is raised. -/
theorem claim_C10_counterexample :
    pyFloatN "x" = none ∧
    nanForm "Rainfall" = some "x" ∧
    infer_missing_featuresF pyFloatN parseDate "2026-10-12" nanForm =
      .error (.pyerr "cannot convert float NaN to integer") ∧
    ∀ m, infer_missing_featuresF pyFloatN parseDate "2026-10-12" nanForm ≠
      .error (.custom m) := by
  have hres : infer_missing_featuresF pyFloatN parseDate "2026-10-12" nanForm =
      .error (.pyerr "cannot convert float NaN to integer") := by
    with_unfolding_all rfl
  refine ⟨by with_unfolding_all rfl, by with_unfolding_all rfl, hres, ?_⟩
  intro m h
  rw [hres] at h
  exact AppErr.noConfusion (Except.error.inj h)

/-- Claim C10 (amended): every form field is optional.  Over any float parser
`pf` (standing for CPython `float()`) and date parser `pd` (standing for
`fromisoformat`) under which the fixed defaults parse: inference succeeds
exactly when every supplied value parses, passes its range test, and the two
int-converted fields (Humidity3pm, WindSpeed3pm) are not NaN; provided
neither int-converted field is supplied as NaN, a CustomException is raised
exactly when some supplied value is non-numeric, fails its range test, or is
an unparseable date (a NaN on an int-converted field instead escapes as a
built-in ValueError, see the counterexample); and absent fields take their
fixed defaults (Location "Sydney" = code 35, today's date, MinTemp 13.0,
MaxTemp 23.0, Humidity3pm 55, WindSpeed3pm 20, Rainfall 0.0). -/
theorem claim_C10_optional_fields
    (pf : String → Option PyFloat) (pd : String → Option PyDate)
    (hf13 : pf "13.0" = some (.finite 13)) (hf23 : pf "23.0" = some (.finite 23))
    (hf55 : pf "55" = some (.finite 55)) (hf20 : pf "20" = some (.finite 20))
    (hf00 : pf "0.0" = some (.finite 0))
    (t : String) (dt : PyDate) (ht : pd t = some dt) (f : Form) :
    ((∃ r, infer_missing_featuresF pf pd t f = .ok r) ↔
      (dateFieldOkF pd (f "Date") ∧ floatFieldOkF pf (f "MinTemp") (-10) 45 ∧
       floatFieldOkF pf (f "MaxTemp") (-10) 50 ∧ intFieldOkF pf (f "Humidity3pm") 0 100 ∧
       intFieldOkF pf (f "WindSpeed3pm") 0 100 ∧ floatFieldOkF pf (f "Rainfall") 0 200)) ∧
    ((∀ s, f "Humidity3pm" = some s → pf s ≠ some .nan) →
     (∀ s, f "WindSpeed3pm" = some s → pf s ≠ some .nan) →
     ((∃ m, infer_missing_featuresF pf pd t f = .error (.custom m)) ↔
       ¬(dateFieldOkF pd (f "Date") ∧ floatFieldOkF pf (f "MinTemp") (-10) 45 ∧
         floatFieldOkF pf (f "MaxTemp") (-10) 50 ∧ floatFieldOkF pf (f "Humidity3pm") 0 100 ∧
         floatFieldOkF pf (f "WindSpeed3pm") 0 100 ∧ floatFieldOkF pf (f "Rainfall") 0 200))) ∧
    (∀ r, infer_missing_featuresF pf pd t f = .ok r →
      (f "Location" = none → r.Location = 35) ∧
      (f "Date" = none → r.Year = dt.year ∧ r.Month = dt.month ∧ r.Day = dt.day) ∧
      (f "MinTemp" = none → r.MinTemp = .finite 13) ∧
      (f "MaxTemp" = none → r.MaxTemp = .finite 23) ∧
      (f "Humidity3pm" = none → r.Humidity3pm = 55) ∧
      (f "WindSpeed3pm" = none → r.WindSpeed3pm = 20) ∧
      (f "Rainfall" = none → r.Rainfall = .finite 0)) := by
  have hc13 := (finite_range_check 13 (-10) 45).2 ⟨by norm_num, by norm_num⟩
  have hc23 := (finite_range_check 23 (-10) 50).2 ⟨by norm_num, by norm_num⟩
  have hc55 := (finite_range_check 55 0 100).2 ⟨by norm_num, by norm_num⟩
  have hc20 := (finite_range_check 20 0 100).2 ⟨by norm_num, by norm_num⟩
  have hc00 := (finite_range_check 0 0 200).2 ⟨by norm_num, by norm_num⟩
  have key : (∃ r, infer_missing_featuresF pf pd t f = .ok r) ↔
      (dateFieldOkF pd (f "Date") ∧ floatFieldOkF pf (f "MinTemp") (-10) 45 ∧
       floatFieldOkF pf (f "MaxTemp") (-10) 50 ∧ intFieldOkF pf (f "Humidity3pm") 0 100 ∧
       intFieldOkF pf (f "WindSpeed3pm") 0 100 ∧ floatFieldOkF pf (f "Rainfall") 0 200) := by
    constructor
    · rintro ⟨r, hr⟩
      rcases (inferF_ok_iff pf pd t f r).1 hr with
        ⟨d, mn, mx, hum, spd, rain, hd, h1, h2, h3, h4, h5, -⟩
      exact ⟨(date_fieldF_exists_iff pd f t dt ht).1 ⟨d, hd⟩,
        (float_fieldF_exists_iff pf f "MinTemp" "13.0" (-10) 45 13 hf13 hc13).1 ⟨mn, h1⟩,
        (float_fieldF_exists_iff pf f "MaxTemp" "23.0" (-10) 50 23 hf23 hc23).1 ⟨mx, h2⟩,
        (int_fieldF_exists_iff pf f "Humidity3pm" "55" 0 100 55 hf55 hc55).1 ⟨hum, h3⟩,
        (int_fieldF_exists_iff pf f "WindSpeed3pm" "20" 0 100 20 hf20 hc20).1 ⟨spd, h4⟩,
        (float_fieldF_exists_iff pf f "Rainfall" "0.0" 0 200 0 hf00 hc00).1 ⟨rain, h5⟩⟩
    · rintro ⟨hA, hB, hC, hD, hE, hF⟩
      rcases (date_fieldF_exists_iff pd f t dt ht).2 hA with ⟨d, hd⟩
      rcases (float_fieldF_exists_iff pf f "MinTemp" "13.0" (-10) 45 13 hf13 hc13).2 hB
        with ⟨mn, h1⟩
      rcases (float_fieldF_exists_iff pf f "MaxTemp" "23.0" (-10) 50 23 hf23 hc23).2 hC
        with ⟨mx, h2⟩
      rcases (int_fieldF_exists_iff pf f "Humidity3pm" "55" 0 100 55 hf55 hc55).2 hD
        with ⟨hum, h3⟩
      rcases (int_fieldF_exists_iff pf f "WindSpeed3pm" "20" 0 100 20 hf20 hc20).2 hE
        with ⟨spd, h4⟩
      rcases (float_fieldF_exists_iff pf f "Rainfall" "0.0" 0 200 0 hf00 hc00).2 hF
        with ⟨rain, h5⟩
      exact ⟨_, (inferF_ok_iff pf pd t f _).2
        ⟨d, mn, mx, hum, spd, rain, hd, h1, h2, h3, h4, h5, rfl⟩⟩
  refine ⟨key, ?_, ?_⟩
  · intro hnoH hnoW
    constructor
    · rintro ⟨m, hm⟩ ⟨hA, hB, hC, hD, hE, hF⟩
      have hD' := (floatOk_iff_intOk pf (f "Humidity3pm") 0 100 hnoH).1 hD
      have hE' := (floatOk_iff_intOk pf (f "WindSpeed3pm") 0 100 hnoW).1 hE
      rcases key.2 ⟨hA, hB, hC, hD', hE', hF⟩ with ⟨r, hr⟩
      rw [hr] at hm
      exact Except.noConfusion hm
    · intro hnot
      by_cases hA : dateFieldOkF pd (f "Date")
      swap
      · rcases date_fieldF_custom_of_not_ok pd f t hA with ⟨m, hm⟩
        exact ⟨m, by unfold infer_missing_featuresF; rw [hm]⟩
      rcases (date_fieldF_exists_iff pd f t dt ht).2 hA with ⟨d, hd⟩
      by_cases hB : floatFieldOkF pf (f "MinTemp") (-10) 45
      swap
      · rcases float_fieldF_custom_of_not_ok pf f "MinTemp" "13.0" (-10) 45 hB with ⟨m, hm⟩
        exact ⟨m, by unfold infer_missing_featuresF; rw [hd, hm]⟩
      rcases (float_fieldF_exists_iff pf f "MinTemp" "13.0" (-10) 45 13 hf13 hc13).2 hB
        with ⟨mn, h1⟩
      by_cases hC : floatFieldOkF pf (f "MaxTemp") (-10) 50
      swap
      · rcases float_fieldF_custom_of_not_ok pf f "MaxTemp" "23.0" (-10) 50 hC with ⟨m, hm⟩
        exact ⟨m, by unfold infer_missing_featuresF; rw [hd, h1, hm]⟩
      rcases (float_fieldF_exists_iff pf f "MaxTemp" "23.0" (-10) 50 23 hf23 hc23).2 hC
        with ⟨mx, h2⟩
      by_cases hD : floatFieldOkF pf (f "Humidity3pm") 0 100
      swap
      · rcases int_fieldF_custom_of_not_ok pf f "Humidity3pm" "55" 0 100 hD with ⟨m, hm⟩
        exact ⟨m, by unfold infer_missing_featuresF; rw [hd, h1, h2, hm]⟩
      have hD' := (floatOk_iff_intOk pf (f "Humidity3pm") 0 100 hnoH).1 hD
      rcases (int_fieldF_exists_iff pf f "Humidity3pm" "55" 0 100 55 hf55 hc55).2 hD'
        with ⟨hum, h3⟩
      by_cases hE : floatFieldOkF pf (f "WindSpeed3pm") 0 100
      swap
      · rcases int_fieldF_custom_of_not_ok pf f "WindSpeed3pm" "20" 0 100 hE with ⟨m, hm⟩
        exact ⟨m, by unfold infer_missing_featuresF; rw [hd, h1, h2, h3, hm]⟩
      have hE' := (floatOk_iff_intOk pf (f "WindSpeed3pm") 0 100 hnoW).1 hE
      rcases (int_fieldF_exists_iff pf f "WindSpeed3pm" "20" 0 100 20 hf20 hc20).2 hE'
        with ⟨spd, h4⟩
      by_cases hF : floatFieldOkF pf (f "Rainfall") 0 200
      swap
      · rcases float_fieldF_custom_of_not_ok pf f "Rainfall" "0.0" 0 200 hF with ⟨m, hm⟩
        exact ⟨m, by unfold infer_missing_featuresF; rw [hd, h1, h2, h3, h4, hm]⟩
      exact absurd ⟨hA, hB, hC, hD, hE, hF⟩ hnot
  · intro r hr
    rcases (inferF_ok_iff pf pd t f r).1 hr with
      ⟨d, mn, mx, hum, spd, rain, hd, h1, h2, h3, h4, h5, rfl⟩
    have h55i : pyRound (55 : ℚ) = 55 := by exact_mod_cast pyRound_intCast 55
    have h20i : pyRound (20 : ℚ) = 20 := by exact_mod_cast pyRound_intCast 20
    refine ⟨?_, ?_, ?_, ?_, ?_, ?_, ?_⟩
    · intro hnone
      simp only [inferFromParsedF]
      rw [formGet_none hnone]
      decide
    · intro hnone
      rw [formGet_none hnone, parse_dateF_ok_iff, ht] at hd
      injection hd with hdd
      subst hdd
      simp only [inferFromParsedF]
      exact ⟨trivial, trivial, trivial⟩
    · intro hnone
      rw [formGet_none hnone] at h1
      have hv := Except.ok.inj (h1.symm.trans
        (parse_float_in_rangeF_default pf "MinTemp" "13.0" (-10) 45 13 hf13 hc13))
      subst hv
      simp only [inferFromParsedF]
    · intro hnone
      rw [formGet_none hnone] at h2
      have hv := Except.ok.inj (h2.symm.trans
        (parse_float_in_rangeF_default pf "MaxTemp" "23.0" (-10) 50 23 hf23 hc23))
      subst hv
      simp only [inferFromParsedF]
    · intro hnone
      rw [formGet_none hnone] at h3
      have hv := Except.ok.inj (h3.symm.trans
        (parse_int_in_rangeF_default pf "Humidity3pm" "55" 0 100 55 hf55 hc55))
      subst hv
      simp only [inferFromParsedF]
      exact h55i
    · intro hnone
      rw [formGet_none hnone] at h4
      have hv := Except.ok.inj (h4.symm.trans
        (parse_int_in_rangeF_default pf "WindSpeed3pm" "20" 0 100 20 hf20 hc20))
      subst hv
      simp only [inferFromParsedF]
      exact h20i
    · intro hnone
      rw [formGet_none hnone] at h5
      have hv := Except.ok.inj (h5.symm.trans
        (parse_float_in_rangeF_default pf "Rainfall" "0.0" 0 200 0 hf00 hc00))
      subst hv
      simp only [inferFromParsedF]

/-- Witness for claim C10: with a concrete parser standing in for `float()`
(under which the defaults parse), the completely empty form — every field
absent — produces a successful inference. -/
theorem claim_C10_witness :
    pyFloatN "13.0" = some (.finite 13) ∧
    parseDate "2026-10-12" = some ⟨2026, 10, 12⟩ ∧
    (∃ r, infer_missing_featuresF pyFloatN parseDate "2026-10-12" emptyForm = .ok r) :=
  have h13 : pyFloatN "13.0" = some (.finite 13) := by with_unfolding_all rfl
  have h23 : pyFloatN "23.0" = some (.finite 23) := by with_unfolding_all rfl
  have h55 : pyFloatN "55" = some (.finite 55) := by with_unfolding_all rfl
  have h20 : pyFloatN "20" = some (.finite 20) := by with_unfolding_all rfl
  have h00 : pyFloatN "0.0" = some (.finite 0) := by with_unfolding_all rfl
  have ht : parseDate "2026-10-12" = some ⟨2026, 10, 12⟩ := by with_unfolding_all rfl
  ⟨h13, ht,
    ((claim_C10_optional_fields pyFloatN parseDate h13 h23 h55 h20 h00
      "2026-10-12" ⟨2026, 10, 12⟩ ht emptyForm).1).2
      ⟨fun s hs => Option.noConfusion hs, fun s hs => Option.noConfusion hs,
       fun s hs => Option.noConfusion hs, fun s hs => Option.noConfusion hs,
       fun s hs => Option.noConfusion hs, fun s hs => Option.noConfusion hs⟩⟩

end WeatherApp

namespace DataProc

/-- Claim C7: each failing step of the offline pipeline re-raises a
`CustomException` wrapping that step's descriptive context and preserving the
original cause, and no later step of `run()` executes after a failure (the
invocation trace stops at the failing step). -/
theorem claim_C7_pipeline_abort (env : PipelineEnv) (e : String) :
    (env.loadBody = .error e →
      run env = (["load_data"], .error ⟨"Failed to load data", e⟩)) ∧
    (env.loadBody = .ok () → env.preprocessBody = .error e →
      run env = (["load_data", "preprocess"],
        .error ⟨"Failed to preprocess data", e⟩)) ∧
    (env.loadBody = .ok () → env.preprocessBody = .ok () →
      env.labelEncodeBody = .error e →
      run env = (["load_data", "preprocess", "label_encode"],
        .error ⟨"Failed to label encode data", e⟩)) ∧
    (env.loadBody = .ok () → env.preprocessBody = .ok () →
      env.labelEncodeBody = .ok () → env.splitBody = .error e →
      run env = (["load_data", "preprocess", "label_encode", "split_data"],
        .error ⟨"Failed to split data", e⟩)) := by
  refine ⟨?_, ?_, ?_, ?_⟩ <;> intros <;>
    simp_all [run, load_data, preprocess, label_encode, split_data, step]

/-- Witness for claim C7: a run whose preprocess body fails stops after
preprocess, wrapping the cause "source boom". -/
theorem claim_C7_witness :
    run ⟨.ok (), .error "source boom", .ok (), .ok ()⟩ =
      (["load_data", "preprocess"],
        .error ⟨"Failed to preprocess data", "source boom"⟩) :=
  (claim_C7_pipeline_abort ⟨.ok (), .error "source boom", .ok (), .ok ()⟩
    "source boom").2.1 rfl rfl

end DataProc


